import Mathlib

/-!
Shallow embedding of the two browser-automation scripts in
`jules-scratch/verification/` (`verify_document_tagging.py` and
`verify_context_tracker.py`).

Each script is a fixed linear sequence of blocking Playwright commands.  We
embed a script as a `List Act` and give the commands their semantics with
an explicit page state and an abstract environment `Env` describing the
external web application (navigation outcomes, element resolution, and the
application's reaction to a click).  A command either succeeds, transforming
the state, or fails (raises), in which case no later command runs; this is
the `Option` result of `exec` and the recursion in `runActions`.

Filesystem effects: the only filesystem effect in either script is
`page.screenshot(path=...)`, which writes a PNG at the given path,
overwriting any existing file.  The scripts never read the filesystem, so we
record screenshot writes as a list and apply them to an initial filesystem
with `applyWrites`.  Playwright's `Page.screenshot` has `full_page=False` by
default, and neither script passes `full_page`, so every embedded screenshot
carries `fullPage := false`.
-/

/-- One blocking Playwright command as issued by the scripts.
`goto` is `page.goto(url)`; `fill` is `page.get_by_test_id(tid).fill(v)`
(element resolution plus replacing the input's value); `expectVisible` is
`expect(page.get_by_test_id(tid)).to_be_visible()`; `clickText` is
`page.get_by_text(txt).click()`; `expectValue` is
`expect(locator).to_have_value(v)`; `screenshot` is
`page.screenshot(path=p)` with Playwright's `full_page` flag made explicit;
`closeBrowser` is `browser.close()`. -/
inductive Act where
  | goto (url : String)
  | fill (testId : String) (value : String)
  | expectVisible (testId : String)
  | clickText (text : String)
  | expectValue (testId : String) (value : String)
  | screenshot (path : String) (fullPage : Bool)
  | closeBrowser
deriving DecidableEq, Repr

/-- The observable state of the one open page: the current value of the
input element carrying a given test id, and whether the element carrying a
given test id is visible. -/
structure PageState where
  inputValue : String → String
  visible : String → Bool

/-- The external web application and network, which the scripts do not
control: whether navigation to a URL succeeds and what page it yields,
whether an input element with a given test id resolves, whether an element
with the given visible text resolves and is clickable, and how the page
changes when it is clicked. -/
structure Env where
  navOk : String → Bool
  afterGoto : String → PageState
  hasInput : PageState → String → Bool
  clickable : PageState → String → Bool
  afterClick : PageState → String → PageState

/-- A PNG screenshot file; the scripts fix its only relevant property,
whether it was captured full-page or viewport-only. -/
structure Shot where
  fullPage : Bool
deriving DecidableEq, Repr

/-- State owned by a running script: the page and whether the launched
browser process is still open. -/
structure SysState where
  page : PageState
  browserOpen : Bool

/-- `locator.fill(v)` replaces (does not append to) the value of the input
with test id `tid`. -/
def setInput (p : PageState) (tid v : String) : PageState :=
  { p with inputValue := fun t => if t = tid then v else p.inputValue t }

/-- Run one command.  `none` models a raised error (navigation failure,
element-resolution failure, or assertion failure); `some (s, w)` is the next
state together with the screenshot writes `(path, shot)` the command made. -/
def exec (env : Env) (s : SysState) : Act → Option (SysState × List (String × Shot))
  | .goto url =>
      if env.navOk url then some ({ s with page := env.afterGoto url }, []) else none
  | .fill tid v =>
      if env.hasInput s.page tid then
        some ({ s with page := setInput s.page tid v }, [])
      else none
  | .expectVisible tid =>
      if s.page.visible tid then some (s, []) else none
  | .clickText txt =>
      if env.clickable s.page txt then
        some ({ s with page := env.afterClick s.page txt }, [])
      else none
  | .expectValue tid v =>
      if s.page.inputValue tid = v then some (s, []) else none
  | .screenshot path fp => some (s, [(path, ⟨fp⟩)])
  | .closeBrowser => some ({ s with browserOpen := false }, [])

/-- Result of running a sequence of commands: whether every command
succeeded, the commands actually attempted (in order, ending with the
failing one if any), the screenshot writes made, and the final state. -/
structure StepResult where
  ok : Bool
  attempted : List Act
  writes : List (String × Shot)
  state : SysState

/-- Run commands in order; a failure aborts every later command. -/
def runActions (env : Env) (s : SysState) : List Act → StepResult
  | [] => ⟨true, [], [], s⟩
  | a :: rest =>
    match exec env s a with
    | none => ⟨false, [a], [], s⟩
    | some (s', w) =>
      let r := runActions env s' rest
      ⟨r.ok, a :: r.attempted, w ++ r.writes, r.state⟩

/-- The body of `run_verification(page)` in `verify_document_tagging.py`,
with the local variable `document_to_select` as parameter: navigate, fill
the chat input with `"@"`, wait for the tagging component, click the
document's visible text, assert the input equals `f" @{document_to_select} "`,
and take a screenshot (Playwright default: not full-page). -/
def run_verification (document_to_select : String) : List Act :=
  [ .goto "http://localhost:3000",
    .fill "multimodal-input" "@",
    .expectVisible "document-tagging",
    .clickText document_to_select,
    .expectValue "multimodal-input" (" @" ++ document_to_select ++ " "),
    .screenshot "jules-scratch/verification/verification.png" false ]

/-- The tagging script runs `run_verification` with
`document_to_select = "Monet"`. -/
def taggingActions : List Act := run_verification "Monet"

/-- The body of the `with sync_playwright()` block in
`verify_context_tracker.py`: navigate, screenshot (Playwright default: not
full-page), close the browser. -/
def contextTrackerActions : List Act :=
  [ .goto "http://localhost:3000",
    .screenshot "jules-scratch/verification/context_tracker.png" false,
    .closeBrowser ]

/-- Outcome of one whole script run: whether the process exits with status
zero, the commands attempted, the screenshot writes, and the final state
(including whether the browser is still open). -/
structure RunOutcome where
  exitZero : Bool
  attempted : List Act
  writes : List (String × Shot)
  state : SysState

/-- Closing the launched browser, whether by an explicit `browser.close()`
in a `finally` block or by `sync_playwright.__exit__` stopping the driver
(which closes every browser it launched). -/
def closeBrowserState (s : SysState) : SysState :=
  { s with browserOpen := false }

/-- Top level of `verify_document_tagging.py`: `run_verification(page)` in a
`try` block whose `finally` calls `browser.close()`, all inside
`with sync_playwright()`.  The teardown therefore runs on every exit path;
the process exits zero exactly when the body raised nothing. -/
def taggingScriptRun (env : Env) (s0 : SysState) : RunOutcome :=
  let r := runActions env s0 taggingActions
  { exitZero := r.ok, attempted := r.attempted, writes := r.writes,
    state := closeBrowserState r.state }

/-- Top level of `verify_context_tracker.py`: the command sequence inside
`with sync_playwright()`.  The explicit `browser.close()` is the last
command of the body; if an earlier command raises, `sync_playwright.__exit__`
still stops the driver, closing the browser (`closeBrowserState`). -/
def contextScriptRun (env : Env) (s0 : SysState) : RunOutcome :=
  let r := runActions env s0 contextTrackerActions
  { exitZero := r.ok, attempted := r.attempted, writes := r.writes,
    state := closeBrowserState r.state }

/-- A command that asserts on visible UI state (a Playwright `expect`). -/
def Act.isAssert : Act → Bool
  | .expectVisible _ => true
  | .expectValue _ _ => true
  | _ => false

/-- A command that acts on the UI (fills an input or clicks an element). -/
def Act.isUIAct : Act → Bool
  | .fill _ _ => true
  | .clickText _ => true
  | _ => false

/-- The URL a command navigates to, when it is a navigation. -/
def Act.gotoUrl : Act → Option String
  | .goto u => some u
  | _ => none

/-- The path and full-page flag of a command, when it is a screenshot. -/
def Act.shotSpec : Act → Option (String × Bool)
  | .screenshot p f => some (p, f)
  | _ => none

/-- The filesystem write a command performs, when it is a screenshot. -/
def Act.shotWrite : Act → Option (String × Shot)
  | .screenshot p f => some (p, ⟨f⟩)
  | _ => none

/-- The text a command clicks, when it is a click. -/
def Act.clickedText : Act → Option String
  | .clickText t => some t
  | _ => none

/-- The test id and value a command asserts an input to have, when it is a
value assertion. -/
def Act.assertedValue : Act → Option (String × String)
  | .expectValue t v => some (t, v)
  | _ => none

/-- Apply a list of screenshot writes to a filesystem, in order; each write
overwrites whatever was at its path. -/
def applyWrites (fs : String → Option Shot) : List (String × Shot) → (String → Option Shot)
  | [] => fs
  | (p, sh) :: rest => applyWrites (fun q => if q = p then some sh else fs q) rest

/-- The spec's reading of the control flow: a run "completes with exit
status zero exactly when every step succeeded".  `stepsSucceed` states
"every step succeeded" directly: each command in turn executes without
raising. -/
def stepsSucceed (env : Env) (s : SysState) : List Act → Bool
  | [] => true
  | a :: rest =>
    match exec env s a with
    | none => false
    | some (s', _) => stepsSucceed env s' rest

/-! ## General lemmas about `runActions` -/

/-- Running a concatenation: the second block runs only if the first block
fully succeeded, from the first block's final state. -/
lemma runActions_append (env : Env) (s : SysState) (l1 l2 : List Act) :
    runActions env s (l1 ++ l2) =
      (if h : (runActions env s l1).ok = true then
        ⟨(runActions env (runActions env s l1).state l2).ok,
         (runActions env s l1).attempted ++ (runActions env (runActions env s l1).state l2).attempted,
         (runActions env s l1).writes ++ (runActions env (runActions env s l1).state l2).writes,
         (runActions env (runActions env s l1).state l2).state⟩
       else runActions env s l1) := by
  induction l1 generalizing s with
  | nil => simp [runActions]
  | cons a rest ih =>
    cases hx : exec env s a with
    | none => simp [runActions, hx]
    | some sw =>
      obtain ⟨s', w⟩ := sw
      simp only [List.cons_append, runActions, hx, List.append_eq]
      rw [ih s']
      by_cases hok : (runActions env s' rest).ok = true <;>
        simp [hok, List.append_assoc]

/-- If every command succeeded, every command was attempted. -/
lemma runActions_ok_attempted (env : Env) (s : SysState) (acts : List Act)
    (h : (runActions env s acts).ok = true) :
    (runActions env s acts).attempted = acts := by
  induction acts generalizing s with
  | nil => simp [runActions]
  | cons a rest ih =>
    cases hx : exec env s a with
    | none => simp [runActions, hx] at h
    | some sw =>
      obtain ⟨s', w⟩ := sw
      simp only [runActions, hx] at h ⊢
      exact congrArg (a :: ·) (ih s' h)

/-- The attempted commands are always an initial segment of the command
list: no command is skipped, reordered, or retried. -/
lemma runActions_attempted_take (env : Env) (s : SysState) (acts : List Act) :
    ∃ n, n ≤ acts.length ∧ (runActions env s acts).attempted = acts.take n := by
  induction acts generalizing s with
  | nil => exact ⟨0, by simp [runActions]⟩
  | cons a rest ih =>
    cases hx : exec env s a with
    | none => exact ⟨1, by simp [runActions, hx]⟩
    | some sw =>
      obtain ⟨s', w⟩ := sw
      obtain ⟨n, hn, hatt⟩ := ih s'
      exact ⟨n + 1, by simpa using hn, by simp [runActions, hx, hatt]⟩

/-- A command that fails is not a screenshot (screenshots always succeed). -/
lemma exec_none_shotWrite (env : Env) (s : SysState) (a : Act)
    (h : exec env s a = none) : a.shotWrite = none := by
  cases a <;> simp [Act.shotWrite, exec] at h ⊢

/-- A command that succeeds contributes exactly its screenshot write (if it
is a screenshot) and nothing otherwise. -/
lemma exec_some_writes (env : Env) (s : SysState) (a : Act)
    (s' : SysState) (w : List (String × Shot)) (h : exec env s a = some (s', w)) :
    w = a.shotWrite.toList := by
  cases a <;> simp [Act.shotWrite, exec] at h ⊢ <;> first
    | (split at h <;> simp_all)
    | simp_all

/-- The writes of a run are exactly the screenshot commands among the
attempted commands. -/
lemma runActions_writes_eq (env : Env) (s : SysState) (acts : List Act) :
    (runActions env s acts).writes
      = (runActions env s acts).attempted.filterMap Act.shotWrite := by
  induction acts generalizing s with
  | nil => simp [runActions]
  | cons a rest ih =>
    cases hx : exec env s a with
    | none =>
      simp [runActions, hx, List.filterMap, exec_none_shotWrite env s a hx]
    | some sw =>
      obtain ⟨s', w⟩ := sw
      have hw := exec_some_writes env s a s' w hx
      cases hsw : a.shotWrite <;>
        simp [runActions, hx, ih s', hw, hsw]

/-- A run exits zero exactly when every step succeeded. -/
lemma runActions_ok_eq_stepsSucceed (env : Env) (s : SysState) (acts : List Act) :
    (runActions env s acts).ok = stepsSucceed env s acts := by
  induction acts generalizing s with
  | nil => rfl
  | cons a rest ih =>
    cases hx : exec env s a with
    | none => simp [runActions, stepsSucceed, hx]
    | some sw =>
      obtain ⟨s', w⟩ := sw
      simp [runActions, stepsSucceed, hx, ih s']

/-- Running commands whose first command fails: only that command is
attempted and the state is unchanged. -/
lemma runActions_cons_fail (env : Env) (s : SysState) (a : Act) (rest : List Act)
    (h : exec env s a = none) :
    runActions env s (a :: rest) = ⟨false, [a], [], s⟩ := by
  simp only [runActions, h]

/-! ## Claim theorems -/

/-- C2: For both scripts and for every exit path (every environment, hence
every combination of step successes and failures), the browser is closed
before the process exits. -/
theorem browser_always_closed (env : Env) (s0 : SysState) :
    (taggingScriptRun env s0).state.browserOpen = false ∧
    (contextScriptRun env s0).state.browserOpen = false :=
  ⟨rfl, rfl⟩

/-- C4 counterexample: the context-tracker script's command sequence
contains no assertion command and no UI-action command at all, so it cannot
"assert on visible state" or "perform UI actions" in any run. -/
theorem context_tracker_no_assert_counterexample :
    contextTrackerActions.any Act.isAssert = false ∧
    contextTrackerActions.any Act.isUIAct = false := by decide

/-- C4 amended: the tagging script performs UI actions and asserts on
visible state before its final screenshot command, but the context-tracker
script performs no UI action and no assertion — it only navigates, captures
a screenshot, and closes the browser. -/
theorem scripts_ui_assert_amended :
    ((taggingActions.take 5).any Act.isUIAct = true ∧
     (taggingActions.take 5).any Act.isAssert = true ∧
     taggingActions.getLast?
       = some (.screenshot "jules-scratch/verification/verification.png" false)) ∧
    (contextTrackerActions.any Act.isAssert = false ∧
     contextTrackerActions.any Act.isUIAct = false ∧
     contextTrackerActions
       = [.goto "http://localhost:3000",
          .screenshot "jules-scratch/verification/context_tracker.png" false,
          .closeBrowser]) := by decide

/-- C5 counterexample: the tagging script's screenshot command carries
`fullPage = false` (Playwright's `Page.screenshot` default, since the
source passes only `path=`), refuting "every screenshot ... is a full-page
screenshot". -/
theorem screenshot_fullpage_counterexample :
    Act.screenshot "jules-scratch/verification/verification.png" false ∈ taggingActions ∧
    taggingActions.any (fun a => a matches .screenshot _ true) = false := by decide

/-- C5 amended: every screenshot either script captures uses the driver's
default capture mode (`full_page=False`, i.e. limited to the viewport, not
full-page), written to its fixed file path. -/
theorem screenshots_viewport_fixed_paths :
    taggingActions.filterMap Act.shotSpec
      = [("jules-scratch/verification/verification.png", false)] ∧
    contextTrackerActions.filterMap Act.shotSpec
      = [("jules-scratch/verification/context_tracker.png", false)] := by decide

/-- C6: each script navigates exactly once, to the hardcoded URL
`http://localhost:3000`; the embedded scripts are closed constants (the
source reads no flag, environment variable, or configuration), so no input
can change the URL, the selectors, or the file paths. -/
theorem goto_hardcoded_url :
    taggingActions.filterMap Act.gotoUrl = ["http://localhost:3000"] ∧
    contextTrackerActions.filterMap Act.gotoUrl = ["http://localhost:3000"] := by decide

/-- C9: the tagging script's second command — before every later step —
resolves the chat input by test id `multimodal-input` and fills it with the
one-character literal `"@"`; `fill` fails when no element matches the test
id, and on success it replaces the input's value with `"@"` regardless of
the previous value. -/
theorem fill_multimodal_input_at (env : Env) (s : SysState) :
    taggingActions.take 2
      = [Act.goto "http://localhost:3000", Act.fill "multimodal-input" "@"] ∧
    exec env s (Act.fill "multimodal-input" "@")
      = (if env.hasInput s.page "multimodal-input" then
           some ({ s with page := setInput s.page "multimodal-input" "@" }, [])
         else none) ∧
    (setInput s.page "multimodal-input" "@").inputValue "multimodal-input" = "@" := by
  refine ⟨by decide, rfl, by simp [setInput]⟩

/-- C10: for whatever document name `D` the variable `document_to_select`
holds, the script's only click targets the element with visible text `D`
and its only value assertion expects exactly `" @" ++ D ++ " "` — the click
target and the assertion can never name different documents; the shipped
script instantiates `D` with `"Monet"`. -/
theorem click_and_assert_share_document (D : String) :
    (run_verification D).filterMap Act.clickedText = [D] ∧
    (run_verification D).filterMap Act.assertedValue
      = [("multimodal-input", " @" ++ D ++ " ")] ∧
    taggingActions = run_verification "Monet" :=
  ⟨rfl, rfl, rfl⟩

/-- C8: no failure is caught or recovered inside either script — the run
exits zero exactly when every step succeeded, the attempted commands are
always an in-order initial segment of the script (nothing retried or
reordered, everything after a failure aborted), and the browser teardown
runs on every exit path. -/
theorem failure_propagation_exit_status (env : Env) (s0 : SysState) :
    ((taggingScriptRun env s0).exitZero = stepsSucceed env s0 taggingActions) ∧
    (∃ n, n ≤ taggingActions.length ∧
      (taggingScriptRun env s0).attempted = taggingActions.take n) ∧
    (taggingScriptRun env s0).state.browserOpen = false ∧
    ((contextScriptRun env s0).exitZero = stepsSucceed env s0 contextTrackerActions) ∧
    (∃ n, n ≤ contextTrackerActions.length ∧
      (contextScriptRun env s0).attempted = contextTrackerActions.take n) ∧
    (contextScriptRun env s0).state.browserOpen = false := by
  refine ⟨?_, ?_, rfl, ?_, ?_, rfl⟩
  · exact runActions_ok_eq_stepsSucceed env s0 taggingActions
  · exact runActions_attempted_take env s0 taggingActions
  · exact runActions_ok_eq_stepsSucceed env s0 contextTrackerActions
  · exact runActions_attempted_take env s0 contextTrackerActions

/-- C1: if the first four steps of the tagging script succeed (navigate,
fill, visibility wait, click), the run exits zero exactly when the chat
input's post-click value equals the literal `" @Monet "` — one leading and
one trailing space — so any value differing by even one character fails the
assertion and the run terminates in error. -/
theorem tagging_assert_exact_monet (env : Env) (s0 : SysState)
    (h : (runActions env s0 (taggingActions.take 4)).ok = true) :
    (taggingScriptRun env s0).exitZero = true ↔
      (runActions env s0 (taggingActions.take 4)).state.page.inputValue "multimodal-input"
        = " @Monet " := by
  have hsplit := runActions_append env s0 (taggingActions.take 4) (taggingActions.drop 4)
  rw [List.take_append_drop] at hsplit
  have hdrop : taggingActions.drop 4
      = [Act.expectValue "multimodal-input" " @Monet ",
         Act.screenshot "jules-scratch/verification/verification.png" false] := by decide
  have hexit : (taggingScriptRun env s0).exitZero
      = (runActions env (runActions env s0 (taggingActions.take 4)).state
          (taggingActions.drop 4)).ok := by
    show (runActions env s0 taggingActions).ok = _
    rw [hsplit, dif_pos h]
  rw [hexit, hdrop]
  generalize (runActions env s0 (taggingActions.take 4)).state = s4
  by_cases hv : s4.page.inputValue "multimodal-input" = " @Monet " <;>
    simp [runActions, exec, hv]

/-- Environment for the C1 witness: every element resolves, everything is
visible, and clicking sets the input to `"@Monet"` — which differs from the
expected `" @Monet "`, so the assertion must fail. -/
def envW : Env :=
  { navOk := fun _ => true
    afterGoto := fun _ => { inputValue := fun _ => "", visible := fun _ => true }
    hasInput := fun _ _ => true
    clickable := fun _ _ => true
    afterClick := fun p _ => setInput p "multimodal-input" "@Monet" }

/-- Initial state for the C1 witness. -/
def s0W : SysState :=
  { page := { inputValue := fun _ => "", visible := fun _ => true }, browserOpen := true }

/-- C1 witness: in `envW` the first four steps succeed, and the
equivalence holds at that concrete run. -/
theorem tagging_assert_exact_monet_witness :
    (runActions envW s0W (taggingActions.take 4)).ok = true ∧
    ((taggingScriptRun envW s0W).exitZero = true ↔
      (runActions envW s0W (taggingActions.take 4)).state.page.inputValue "multimodal-input"
        = " @Monet ") :=
  ⟨by decide, tagging_assert_exact_monet envW s0W (by decide)⟩

/-- C3: if the first two steps of the tagging script succeed but the
element with test id `document-tagging` is not visible afterwards, the run
exits non-zero and attempts exactly the first three commands — it never
performs the `"Monet"` click, the input-value assertion, or the
screenshot. -/
theorem tagging_visibility_gate (env : Env) (s0 : SysState)
    (h2 : (runActions env s0 (taggingActions.take 2)).ok = true)
    (hvis : (runActions env s0 (taggingActions.take 2)).state.page.visible
      "document-tagging" = false) :
    (taggingScriptRun env s0).exitZero = false ∧
    (taggingScriptRun env s0).attempted = taggingActions.take 3 := by
  have hsplit := runActions_append env s0 (taggingActions.take 2) (taggingActions.drop 2)
  rw [List.take_append_drop] at hsplit
  have hdrop : taggingActions.drop 2
      = Act.expectVisible "document-tagging" :: taggingActions.drop 3 := by decide
  have hfail : exec env (runActions env s0 (taggingActions.take 2)).state
      (Act.expectVisible "document-tagging") = none := by
    simp [exec, hvis]
  have hrun2 : runActions env (runActions env s0 (taggingActions.take 2)).state
      (taggingActions.drop 2)
      = ⟨false, [Act.expectVisible "document-tagging"], [],
         (runActions env s0 (taggingActions.take 2)).state⟩ := by
    rw [hdrop]; exact runActions_cons_fail env _ _ _ hfail
  have hatt2 := runActions_ok_attempted env s0 (taggingActions.take 2) h2
  have htake : taggingActions.take 2 ++ [Act.expectVisible "document-tagging"]
      = taggingActions.take 3 := by decide
  constructor
  · show (runActions env s0 taggingActions).ok = false
    rw [hsplit, dif_pos h2, hrun2]
  · show (runActions env s0 taggingActions).attempted = taggingActions.take 3
    rw [hsplit, dif_pos h2, hrun2]
    simpa [hatt2] using htake

/-- Environment for the C3 witness: navigation and element resolution
succeed, but nothing on the page is ever visible, so the visibility wait
must fail. -/
def envW3 : Env :=
  { navOk := fun _ => true
    afterGoto := fun _ => { inputValue := fun _ => "", visible := fun _ => false }
    hasInput := fun _ _ => true
    clickable := fun _ _ => true
    afterClick := fun p _ => p }

/-- Initial state for the C3 witness. -/
def s0W3 : SysState :=
  { page := { inputValue := fun _ => "", visible := fun _ => false }, browserOpen := true }

/-- C3 witness: in `envW3` the first two steps succeed, the tagging
component is not visible, and the run stops after the third command with a
non-zero exit. -/
theorem tagging_visibility_gate_witness :
    ((runActions envW3 s0W3 (taggingActions.take 2)).ok = true ∧
     (runActions envW3 s0W3 (taggingActions.take 2)).state.page.visible
       "document-tagging" = false) ∧
    ((taggingScriptRun envW3 s0W3).exitZero = false ∧
     (taggingScriptRun envW3 s0W3).attempted = taggingActions.take 3) :=
  ⟨⟨by decide, by decide⟩, tagging_visibility_gate envW3 s0W3 (by decide) (by decide)⟩

/-- Any prefix of the tagging script contains either no screenshot write or
exactly the one at the fixed verification path. -/
lemma tagging_take_writes (n : ℕ) (hn : n ≤ 6) :
    (taggingActions.take n).filterMap Act.shotWrite = [] ∨
    (taggingActions.take n).filterMap Act.shotWrite
      = [("jules-scratch/verification/verification.png", (⟨false⟩ : Shot))] := by
  interval_cases n <;> first
    | exact Or.inl (by decide)
    | exact Or.inr (by decide)

/-- Any prefix of the context-tracker script contains either no screenshot
write or exactly the one at the fixed context-tracker path. -/
lemma context_take_writes (n : ℕ) (hn : n ≤ 3) :
    (contextTrackerActions.take n).filterMap Act.shotWrite = [] ∨
    (contextTrackerActions.take n).filterMap Act.shotWrite
      = [("jules-scratch/verification/context_tracker.png", (⟨false⟩ : Shot))] := by
  interval_cases n <;> first
    | exact Or.inl (by decide)
    | exact Or.inr (by decide)

/-- A write list that is empty or a single write at `p` touches no other
path and is idempotent under `applyWrites`. -/
lemma applyWrites_single_idem (fs : String → Option Shot) (p : String) (v : Shot)
    (w : List (String × Shot)) (hw : w = [] ∨ w = [(p, v)]) :
    (∀ q : String, q = p ∨ applyWrites fs w q = fs q) ∧
    applyWrites (applyWrites fs w) w = applyWrites fs w := by
  rcases hw with h | h <;> subst h
  · exact ⟨fun q => Or.inr rfl, rfl⟩
  · constructor
    · intro q
      by_cases hq : q = p
      · exact Or.inl hq
      · exact Or.inr (by simp [applyWrites, hq])
    · funext q
      by_cases hq : q = p <;> simp [applyWrites, hq]

/-- The tagging script's writes: none (early failure) or exactly one at the
fixed path. -/
lemma tagging_writes_cases (env : Env) (s0 : SysState) :
    (taggingScriptRun env s0).writes = [] ∨
    (taggingScriptRun env s0).writes
      = [("jules-scratch/verification/verification.png", (⟨false⟩ : Shot))] := by
  obtain ⟨n, hn, hatt⟩ := runActions_attempted_take env s0 taggingActions
  have h1 : (taggingScriptRun env s0).writes = (runActions env s0 taggingActions).writes := rfl
  rw [h1, runActions_writes_eq, hatt]
  exact tagging_take_writes n (by simpa [taggingActions, run_verification] using hn)

/-- The context-tracker script's writes: none (early failure) or exactly
one at the fixed path. -/
lemma context_writes_cases (env : Env) (s0 : SysState) :
    (contextScriptRun env s0).writes = [] ∨
    (contextScriptRun env s0).writes
      = [("jules-scratch/verification/context_tracker.png", (⟨false⟩ : Shot))] := by
  obtain ⟨n, hn, hatt⟩ := runActions_attempted_take env s0 contextTrackerActions
  have h1 : (contextScriptRun env s0).writes
      = (runActions env s0 contextTrackerActions).writes := rfl
  rw [h1, runActions_writes_eq, hatt]
  exact context_take_writes n (by simpa [contextTrackerActions] using hn)

/-- C7: each script writes screenshots only at its one fixed relative path
(`verification.png` for the tagging script, `context_tracker.png` for the
context-tracker script), leaves every other path of the filesystem
untouched, and its writes are idempotent — applying a run's writes twice
equals applying them once, so running a script twice accumulates no extra
files and creates no other persistent state. -/
theorem fixed_screenshot_path_idempotent (env : Env) (s0 : SysState)
    (fs0 : String → Option Shot) :
    ((taggingScriptRun env s0).writes = [] ∨
     (taggingScriptRun env s0).writes
       = [("jules-scratch/verification/verification.png", (⟨false⟩ : Shot))]) ∧
    (∀ q : String, q = "jules-scratch/verification/verification.png" ∨
      applyWrites fs0 (taggingScriptRun env s0).writes q = fs0 q) ∧
    (applyWrites (applyWrites fs0 (taggingScriptRun env s0).writes)
        (taggingScriptRun env s0).writes
      = applyWrites fs0 (taggingScriptRun env s0).writes) ∧
    ((contextScriptRun env s0).writes = [] ∨
     (contextScriptRun env s0).writes
       = [("jules-scratch/verification/context_tracker.png", (⟨false⟩ : Shot))]) ∧
    (∀ q : String, q = "jules-scratch/verification/context_tracker.png" ∨
      applyWrites fs0 (contextScriptRun env s0).writes q = fs0 q) ∧
    (applyWrites (applyWrites fs0 (contextScriptRun env s0).writes)
        (contextScriptRun env s0).writes
      = applyWrites fs0 (contextScriptRun env s0).writes) := by
  have ht := tagging_writes_cases env s0
  have hc := context_writes_cases env s0
  have ht2 := applyWrites_single_idem fs0 "jules-scratch/verification/verification.png"
    ⟨false⟩ _ ht
  have hc2 := applyWrites_single_idem fs0 "jules-scratch/verification/context_tracker.png"
    ⟨false⟩ _ hc
  exact ⟨ht, ht2.1, ht2.2, hc, hc2.1, hc2.2⟩
